import Mathlib

/-!
Shallow embedding of the OIDC session manager of `oidc-demoapp-expo`
(`src/authService` and the foreground handler of `src/AuthContext.tsx`).

Modelling conventions:
* Epoch-millisecond instants are `Int`; `Date.now()` is the `now` field of
  the environment (one instant per embedded call).
* The keychain blob is stored and parsed through an inverse
  `JSON.stringify`/`JSON.parse` pair, so it is modelled directly as an
  `Option KeychainCredentials`.
* The two AsyncStorage entries hold decimal strings of epoch milliseconds
  written by `toString` and read back by `parseInt`; this inverse pair is
  modelled as `Option Int`.
* Each fallible collaborator call is driven by the environment: a `Bool`
  flag per primitive says whether that call throws inside the embedded
  operation, and the refresh/authorize endpoints either return a response
  or throw (`Option AuthResult`).
* A `Stats` record counts network calls and deletion attempts so that
  "no network call" and "deletion attempted" are stateable.
-/

namespace OidcDemo

/-- The blob stored in the keychain (`KeychainCredentials` in `types.ts`);
`refreshToken` is coerced to a string with `String(x ?? "")` before storage,
so an absent refresh token is the empty string. -/
structure KeychainCredentials where
  accessToken : String
  idToken : String
  refreshToken : String
deriving Repr, DecidableEq

/-- The persistent state: the secure keychain slot and the two plain
AsyncStorage entries (`auth.tokenExpiry`, `auth.refreshExpiry`). -/
structure Store where
  keychain : Option KeychainCredentials
  tokenExpiry : Option Int
  refreshExpiry : Option Int
deriving Repr, DecidableEq

/-- A fully cleared store. -/
def Store.empty : Store := ⟨none, none, none⟩

/-- Result shape of the `authorize`/`refresh` collaborators
(`AuthorizeResult | RefreshResult`): `accessTokenExpirationDate` is the
epoch-ms value of `new Date(...).getTime()` on the response's date string;
the two optional `refresh_expires_in` carriers correspond to
`additionalParameters` and `tokenAdditionalParameters` (seconds). -/
structure AuthResult where
  accessToken : String
  idToken : String
  refreshTokenOpt : Option String
  accessTokenExpirationDate : Int
  additionalRefreshExpiresIn : Option Int
  tokenAdditionalRefreshExpiresIn : Option Int
deriving Repr, DecidableEq

/-- `AuthTokens` from `types.ts`: what the service hands to callers. -/
structure AuthTokens where
  accessToken : String
  refreshToken : String
  idToken : String
  accessTokenExpirationDate : Int
  refreshTokenExpirationDate : Int
deriving Repr, DecidableEq

/-- Environment of one embedded call: the clock and the behaviour of every
external collaborator (throw / respond). -/
structure Env where
  now : Int
  refreshResponse : Option AuthResult
  authorizeResponse : Option AuthResult
  logoutEndpointThrows : Bool
  getConfigThrows : Bool
  keychainSetThrows : Bool
  keychainGetThrows : Bool
  keychainResetThrows : Bool
  asGetThrows : Bool
  asSetTokenThrows : Bool
  asSetRefreshThrows : Bool
  asRemoveTokenThrows : Bool
  asRemoveRefreshThrows : Bool
deriving Repr, DecidableEq

/-- Observable side effects: network calls made and deletions attempted. -/
structure Stats where
  refreshCalls : Nat
  authorizeCalls : Nat
  revokeCalls : Nat
  getTokensCalls : Nat
  keychainResetAttempts : Nat
  removeTokenAttempts : Nat
  removeRefreshAttempts : Nat
deriving Repr, DecidableEq

def Stats.zero : Stats := ⟨0, 0, 0, 0, 0, 0, 0⟩

/-- `(authResult as any).additionalParameters?.refresh_expires_in ??
(authResult as any).tokenAdditionalParameters?.refresh_expires_in`. -/
def refreshExpiresRaw (a : AuthResult) : Option Int :=
  a.additionalRefreshExpiresIn <|> a.tokenAdditionalRefreshExpiresIn

/-- The credentials object built at the top of `storeTokens`:
`refreshToken` is `String(authResult.refreshToken ?? "")`. -/
def credsOf (a : AuthResult) : KeychainCredentials :=
  ⟨a.accessToken, a.idToken, a.refreshTokenOpt.getD ""⟩

/-- The `AuthTokens` value assembled from a fresh authorize/refresh response
(the common tail of `refreshTokens` and `login`):
`refreshTokenExpirationDate = Date.now() + Number(refreshExpiresRaw ?? 0) * 1000`. -/
def tokensOf (env : Env) (a : AuthResult) : AuthTokens :=
  { accessToken := a.accessToken
    refreshToken := a.refreshTokenOpt.getD ""
    idToken := a.idToken
    accessTokenExpirationDate := a.accessTokenExpirationDate
    refreshTokenExpirationDate := env.now + (refreshExpiresRaw a).getD 0 * 1000 }

/-- `storeTokens` (authService lines 27-70): writes the blob to the keychain,
then the access expiry, then the refresh expiry
(`Date.now() + Number(refreshExpiresRaw ?? 0) * 1000`); any throw is caught
and `false` is returned with whatever writes already happened kept. -/
def storeTokens (env : Env) (store : Store) (a : AuthResult) : Bool × Store :=
  if env.keychainSetThrows then (false, store)
  else
    let store1 : Store := { store with keychain := some (credsOf a) }
    if env.asSetTokenThrows then (false, store1)
    else
      let store2 : Store := { store1 with tokenExpiry := some a.accessTokenExpirationDate }
      if env.asSetRefreshThrows then (false, store2)
      else
        (true, { store2 with
                   refreshExpiry := some (env.now + (refreshExpiresRaw a).getD 0 * 1000) })

/-- `clearTokens` (authService lines 198-211): one try/catch around
`resetGenericPassword`, `removeItem(TOKEN_EXPIRY_KEY)`,
`removeItem(REFRESH_EXPIRY_KEY)` in that order; the first throw aborts the
sequence and returns `false`. -/
def clearTokens (env : Env) (store : Store) (s : Stats) : Bool × Store × Stats :=
  let s1 : Stats := { s with keychainResetAttempts := s.keychainResetAttempts + 1 }
  if env.keychainResetThrows then (false, store, s1)
  else
    let store1 : Store := { store with keychain := none }
    let s2 : Stats := { s1 with removeTokenAttempts := s1.removeTokenAttempts + 1 }
    if env.asRemoveTokenThrows then (false, store1, s2)
    else
      let store2 : Store := { store1 with tokenExpiry := none }
      let s3 : Stats := { s2 with removeRefreshAttempts := s2.removeRefreshAttempts + 1 }
      if env.asRemoveRefreshThrows then (false, store2, s3)
      else (true, { store2 with refreshExpiry := none }, s3)

/-- `refreshTokens` (authService lines 143-195): reads the blob; absent blob
or empty `refreshToken` returns `null` early (no clear); otherwise calls the
refresh endpoint once, stores the response (result of `storeTokens` is
ignored) and returns the new tokens; any throw is caught, the store is
cleared and `null` returned. -/
def refreshTokens (env : Env) (store : Store) (s : Stats) :
    Option AuthTokens × Store × Stats :=
  if env.keychainGetThrows then
    let r := clearTokens env store s
    (none, r.2.1, r.2.2)
  else
    match store.keychain with
    | none => (none, store, s)
    | some creds =>
      if creds.refreshToken = "" then (none, store, s)
      else if env.getConfigThrows then
        let r := clearTokens env store s
        (none, r.2.1, r.2.2)
      else
        let s1 : Stats := { s with refreshCalls := s.refreshCalls + 1 }
        match env.refreshResponse with
        | none =>
          let r := clearTokens env store s1
          (none, r.2.1, r.2.2)
        | some resp =>
          let r := storeTokens env store resp
          (some (tokensOf env resp), r.2, s1)

/-- `getTokens` (authService lines 73-140): reads both expiry entries; if
either is missing returns `null`; if `now >= accessExpiry` delegates to
`refreshTokens`; otherwise reads the blob and returns the stored tokens;
any throw is caught and `null` returned (no clear). -/
def getTokens (env : Env) (store : Store) (s : Stats) :
    Option AuthTokens × Store × Stats :=
  let s0 : Stats := { s with getTokensCalls := s.getTokensCalls + 1 }
  if env.asGetThrows then (none, store, s0)
  else
    match store.tokenExpiry, store.refreshExpiry with
    | some accessExpiry, some refreshExpiry =>
      if accessExpiry ≤ env.now then refreshTokens env store s0
      else if env.keychainGetThrows then (none, store, s0)
      else
        match store.keychain with
        | none => (none, store, s0)
        | some creds =>
          (some { accessToken := creds.accessToken
                  refreshToken := creds.refreshToken
                  idToken := creds.idToken
                  accessTokenExpirationDate := accessExpiry
                  refreshTokenExpirationDate := refreshExpiry }, store, s0)
    | _, _ => (none, store, s0)

/-- `login` (authService lines 214-253): fetches the config, runs the
interactive `authorize` flow, stores the result; returns the tokens only
when `storeTokens` reported success; any throw is caught and `null`
returned. -/
def login (env : Env) (store : Store) (s : Stats) :
    Option AuthTokens × Store × Stats :=
  if env.getConfigThrows then (none, store, s)
  else
    let s1 : Stats := { s with authorizeCalls := s.authorizeCalls + 1 }
    match env.authorizeResponse with
    | none => (none, store, s1)
    | some a =>
      let r := storeTokens env store a
      if r.1 then (some (tokensOf env a), r.2, s1)
      else (none, r.2, s1)

/-- `logoutUser` (authService lines 256-278): fetches the config and calls
the OIDC logout endpoint; on success returns the result of `clearTokens`;
any throw is caught, the store is cleared and `true` returned. -/
def logoutUser (env : Env) (store : Store) (s : Stats) : Bool × Store × Stats :=
  if env.getConfigThrows then
    let r := clearTokens env store s
    (true, r.2.1, r.2.2)
  else
    let s1 : Stats := { s with revokeCalls := s.revokeCalls + 1 }
    if env.logoutEndpointThrows then
      let r := clearTokens env store s1
      (true, r.2.1, r.2.2)
    else clearTokens env store s1

/-- React Native `AppStateStatus` values relevant to the handler. -/
inductive AppStateStatus where
  | active
  | background
  | inactive
deriving Repr, DecidableEq

/-- The in-memory auth context state mutated by the handler. -/
structure CtxState where
  isAuthenticated : Bool
  authData : Option AuthTokens
deriving Repr, DecidableEq

/-- `handleAppStateChange` (`AuthContext.tsx` lines 236-267): on an
`active` signal with `isAuthenticated` it calls `getTokens`; when that
returns `null` it resets the context and emits the session-expired event
(final `Bool`). The handler keeps no record of the previously observed app
state. -/
def handleAppStateChange (env : Env) (store : Store) (ctx : CtxState) (s : Stats)
    (next : AppStateStatus) : CtxState × Store × Stats × Bool :=
  if next = AppStateStatus.active then
    if ctx.isAuthenticated then
      let r := getTokens env store s
      match r.1 with
      | none => (⟨false, none⟩, r.2.1, r.2.2, true)
      | some _ => (ctx, r.2.1, r.2.2, false)
    else (ctx, store, s, false)
  else (ctx, store, s, false)

/-- An environment with a working storage layer and failing network
collaborators; claims override the fields they need. -/
def baseEnv (now : Int) : Env :=
  { now := now
    refreshResponse := none
    authorizeResponse := none
    logoutEndpointThrows := false
    getConfigThrows := false
    keychainSetThrows := false
    keychainGetThrows := false
    keychainResetThrows := false
    asGetThrows := false
    asSetTokenThrows := false
    asSetRefreshThrows := false
    asRemoveTokenThrows := false
    asRemoveRefreshThrows := false }

/-! ## Helper lemmas -/

/-- `clearTokens` never calls the refresh endpoint. -/
@[simp] theorem clearTokens_refreshCalls (env : Env) (store : Store) (s : Stats) :
    (clearTokens env store s).2.2.refreshCalls = s.refreshCalls := by
  unfold clearTokens
  split <;> [skip; split <;> [skip; split]] <;> rfl

/-- `clearTokens` never runs the authorization flow. -/
@[simp] theorem clearTokens_authorizeCalls (env : Env) (store : Store) (s : Stats) :
    (clearTokens env store s).2.2.authorizeCalls = s.authorizeCalls := by
  unfold clearTokens
  split <;> [skip; split <;> [skip; split]] <;> rfl

/-- `clearTokens` never calls the revocation endpoint. -/
@[simp] theorem clearTokens_revokeCalls (env : Env) (store : Store) (s : Stats) :
    (clearTokens env store s).2.2.revokeCalls = s.revokeCalls := by
  unfold clearTokens
  split <;> [skip; split <;> [skip; split]] <;> rfl

/-- Whenever `getTokens` returns tokens whose access expiry is not in the
future, the refresh endpoint was called exactly once more than before. -/
theorem getTokens_expired_refreshCalls (e : Env) (st : Store) (s : Stats)
    (t : AuthTokens) (h : (getTokens e st s).1 = some t)
    (hle : t.accessTokenExpirationDate ≤ e.now) :
    (getTokens e st s).2.2.refreshCalls = s.refreshCalls + 1 := by
  obtain ⟨kc, ae, re⟩ := st
  cases ae with
  | none => simp [getTokens] at h
  | some ae =>
    cases re with
    | none => simp [getTokens] at h
    | some re =>
      by_cases hg : e.asGetThrows
      · simp [getTokens, hg] at h
      · by_cases hexp : ae ≤ e.now
        · simp only [getTokens, hg, hexp, Bool.false_eq_true, if_false, if_true,
            if_pos hexp] at h ⊢
          cases kc with
          | none => by_cases hkg : e.keychainGetThrows <;> simp [refreshTokens, hkg] at h
          | some creds =>
            by_cases hkg : e.keychainGetThrows
            · simp [refreshTokens, hkg, clearTokens] at h
            · by_cases hrt : creds.refreshToken = ""
              · simp [refreshTokens, hkg, hrt] at h
              · by_cases hcfg : e.getConfigThrows
                · simp [refreshTokens, hkg, hrt, hcfg, clearTokens] at h
                · cases hresp : e.refreshResponse with
                  | none =>
                    simp [refreshTokens, hkg, hrt, hcfg, hresp, clearTokens] at h
                  | some resp =>
                    simp [refreshTokens, hkg, hrt, hcfg, hresp, storeTokens]
        · by_cases hkg : e.keychainGetThrows
          · simp [getTokens, hg, hexp, hkg] at h
          · cases kc with
            | none => simp [getTokens, hg, hexp, hkg] at h
            | some creds =>
              simp only [getTokens, hg, hexp, hkg, Bool.false_eq_true, if_false,
                Option.some.injEq] at h
              rw [← h] at hle
              exact absurd hle hexp

/-! ## Claims -/

/-- C1: for every stored credential, a `getTokens` call at a time `now` with
`now < accessTokenExpiresAt` returns the stored credential unchanged and
performs no network call; and `getTokens` never returns a credential whose
`accessTokenExpiresAt ≤ now` without first making exactly one refresh
attempt. -/
theorem C1_getTokens_expiry_correctness
    (env : Env) (store : Store) (c : KeychainCredentials) (ae re : Int)
    (hkc : store.keychain = some c) (hae : store.tokenExpiry = some ae)
    (hre : store.refreshExpiry = some re)
    (hfresh : env.now < ae)
    (hg : env.asGetThrows = false) (hkg : env.keychainGetThrows = false) :
    ((getTokens env store Stats.zero).1 =
        some ⟨c.accessToken, c.refreshToken, c.idToken, ae, re⟩
      ∧ (getTokens env store Stats.zero).2.1 = store
      ∧ (getTokens env store Stats.zero).2.2.refreshCalls = 0
      ∧ (getTokens env store Stats.zero).2.2.authorizeCalls = 0
      ∧ (getTokens env store Stats.zero).2.2.revokeCalls = 0)
    ∧ ∀ (e : Env) (st : Store) (t : AuthTokens),
        (getTokens e st Stats.zero).1 = some t →
        t.accessTokenExpirationDate ≤ e.now →
        (getTokens e st Stats.zero).2.2.refreshCalls = 1 := by
  constructor
  · have hne : ¬ ae ≤ env.now := by omega
    obtain ⟨kc, tae, tre⟩ := store
    simp only [Store.mk.injEq] at hkc hae hre ⊢
    subst hkc; subst hae; subst hre
    refine ⟨?_, ?_, ?_, ?_, ?_⟩ <;> simp [getTokens, hg, hkg, hne, Stats.zero]
  · intro e st t h hle
    simpa using getTokens_expired_refreshCalls e st Stats.zero t h hle

/-- Witness for C1 at a concrete fresh credential. -/
theorem C1_getTokens_expiry_correctness_witness :
    (getTokens (baseEnv 0) ⟨some ⟨"A", "I", "R"⟩, some 100, some 200⟩ Stats.zero).1 =
      some ⟨"A", "R", "I", 100, 200⟩ :=
  (C1_getTokens_expiry_correctness (baseEnv 0) ⟨some ⟨"A", "I", "R"⟩, some 100, some 200⟩
      ⟨"A", "I", "R"⟩ 100 200 rfl rfl rfl (by simp [baseEnv]) rfl rfl).1.1

/-- C4: for every store state in which only the plain expiry entries are
present but the secure blob is absent, or the secure blob is present but at
least one expiry entry is absent (a partial save), a subsequent load
(`getTokens`) returns absent and never a partially-populated credential. -/
theorem C4_partial_save_loads_absent (env : Env) (store : Store)
    (h : (store.keychain = none ∧ store.tokenExpiry.isSome ∧ store.refreshExpiry.isSome)
       ∨ (store.keychain.isSome ∧ (store.tokenExpiry = none ∨ store.refreshExpiry = none))) :
    (getTokens env store Stats.zero).1 = none := by
  obtain ⟨kc, tae, tre⟩ := store
  rcases h with ⟨hkc, h1, h2⟩ | ⟨hkc, h1 | h1⟩
  · simp only at hkc h1 h2
    subst hkc
    obtain ⟨ae, rfl⟩ := Option.isSome_iff_exists.mp h1
    obtain ⟨re, rfl⟩ := Option.isSome_iff_exists.mp h2
    by_cases hg : env.asGetThrows
    · simp [getTokens, hg]
    · by_cases hexp : ae ≤ env.now
      · by_cases hkg : env.keychainGetThrows <;>
          simp [getTokens, refreshTokens, hg, hexp, hkg]
      · by_cases hkg : env.keychainGetThrows <;> simp [getTokens, hg, hexp, hkg]
  · simp only at h1
    subst h1
    by_cases hg : env.asGetThrows <;> simp [getTokens, hg]
  · simp only at h1
    subst h1
    by_cases hg : env.asGetThrows <;>
      [skip; cases tae] <;> simp [getTokens, hg]

/-- Witness for C4 at a store holding both expiry entries but no blob. -/
theorem C4_partial_save_loads_absent_witness :
    (getTokens (baseEnv 0) ⟨none, some 7, some 9⟩ Stats.zero).1 = none :=
  C4_partial_save_loads_absent (baseEnv 0) ⟨none, some 7, some 9⟩
    (Or.inl ⟨rfl, rfl, rfl⟩)

/-- C2: when the refresh collaborator errors during a `getTokens` call, the
operation returns no session, the store is cleared, and a subsequent load
returns absent with the prior secure blob removed. -/
theorem C2_refresh_error_clears_session
    (env : Env) (store : Store) (c : KeychainCredentials) (ae re : Int)
    (hkc : store.keychain = some c) (hae : store.tokenExpiry = some ae)
    (hre : store.refreshExpiry = some re)
    (hexp : ae ≤ env.now)
    (hrt : c.refreshToken ≠ "")
    (hresp : env.refreshResponse = none)
    (hg : env.asGetThrows = false) (hkg : env.keychainGetThrows = false)
    (hcfg : env.getConfigThrows = false)
    (hr1 : env.keychainResetThrows = false) (hr2 : env.asRemoveTokenThrows = false)
    (hr3 : env.asRemoveRefreshThrows = false) :
    (getTokens env store Stats.zero).1 = none
    ∧ (getTokens env store Stats.zero).2.1 = Store.empty
    ∧ (getTokens env store Stats.zero).2.1.keychain = none
    ∧ ∀ (e2 : Env),
        (getTokens e2 (getTokens env store Stats.zero).2.1 Stats.zero).1 = none := by
  obtain ⟨kc, tae, tre⟩ := store
  simp only at hkc hae hre
  subst hkc; subst hae; subst hre
  have hmain :
      (getTokens env ⟨some c, some ae, some re⟩ Stats.zero).2.1 = Store.empty := by
    simp [getTokens, refreshTokens, clearTokens, Store.empty,
      hg, hkg, hcfg, hexp, hrt, hresp, hr1, hr2, hr3]
  refine ⟨?_, hmain, ?_, ?_⟩
  · simp [getTokens, refreshTokens, clearTokens,
      hg, hkg, hcfg, hexp, hrt, hresp, hr1, hr2, hr3]
  · rw [hmain]; rfl
  · intro e2
    rw [hmain]
    by_cases hg2 : e2.asGetThrows <;> simp [getTokens, Store.empty, hg2]

/-- Witness for C2: an expired credential whose refresh call errors. -/
theorem C2_refresh_error_clears_session_witness :
    (getTokens (baseEnv 10) ⟨some ⟨"A", "I", "R"⟩, some 5, some 20⟩ Stats.zero).1 = none
    ∧ (getTokens (baseEnv 10) ⟨some ⟨"A", "I", "R"⟩, some 5, some 20⟩ Stats.zero).2.1 =
        Store.empty :=
  let h := C2_refresh_error_clears_session (baseEnv 10)
    ⟨some ⟨"A", "I", "R"⟩, some 5, some 20⟩ ⟨"A", "I", "R"⟩ 5 20
    rfl rfl rfl (by simp [baseEnv]) (by simp) rfl rfl rfl rfl rfl rfl rfl
  ⟨h.1, h.2.1⟩

/-- C3 counterexample: with an absent (empty) refresh token the refresh
attempt fails immediately with no network call, but the session store is
NOT cleared — it is left exactly as it was, contradicting the claim that
the store is cleared. -/
theorem C3_counterexample :
    (refreshTokens (baseEnv 0) ⟨some ⟨"A", "I", ""⟩, some 0, some 5⟩ Stats.zero).1 = none
    ∧ (refreshTokens (baseEnv 0) ⟨some ⟨"A", "I", ""⟩, some 0, some 5⟩
        Stats.zero).2.2.refreshCalls = 0
    ∧ (refreshTokens (baseEnv 0) ⟨some ⟨"A", "I", ""⟩, some 0, some 5⟩ Stats.zero).2.1 =
        ⟨some ⟨"A", "I", ""⟩, some 0, some 5⟩
    ∧ (⟨some ⟨"A", "I", ""⟩, some 0, some 5⟩ : Store) ≠ Store.empty := by
  refine ⟨rfl, rfl, rfl, ?_⟩
  simp [Store.empty]

/-- C3 amended: for every stored credential whose refresh token is absent
(the empty string after storage coercion), a refresh attempt fails
immediately without calling the refresh endpoint, and the session store is
left unchanged (it is NOT cleared). -/
theorem C3_amended_refresh_without_token
    (env : Env) (store : Store) (c : KeychainCredentials)
    (hkc : store.keychain = some c) (hrt : c.refreshToken = "")
    (hkg : env.keychainGetThrows = false) :
    (refreshTokens env store Stats.zero).1 = none
    ∧ (refreshTokens env store Stats.zero).2.2.refreshCalls = 0
    ∧ (refreshTokens env store Stats.zero).2.1 = store := by
  obtain ⟨kc, tae, tre⟩ := store
  simp only at hkc
  subst hkc
  refine ⟨?_, ?_, ?_⟩ <;> simp [refreshTokens, hkg, hrt, Stats.zero]

/-- Witness for the amended C3. -/
theorem C3_amended_refresh_without_token_witness :
    (refreshTokens (baseEnv 3) ⟨some ⟨"B", "J", ""⟩, some 1, some 2⟩ Stats.zero).2.1 =
      ⟨some ⟨"B", "J", ""⟩, some 1, some 2⟩ :=
  (C3_amended_refresh_without_token (baseEnv 3) ⟨some ⟨"B", "J", ""⟩, some 1, some 2⟩
    ⟨"B", "J", ""⟩ rfl rfl rfl).2.2

/-- C5 counterexample: when deleting the secure blob fails, `clearTokens`
returns immediately — the two expiry deletions are never attempted and the
whole store is left untouched, contradicting the claim that all three
deletions are attempted even when one fails. -/
theorem C5_counterexample :
    (clearTokens { baseEnv 0 with keychainResetThrows := true }
        ⟨some ⟨"A", "I", "R"⟩, some 1, some 2⟩ Stats.zero).1 = false
    ∧ (clearTokens { baseEnv 0 with keychainResetThrows := true }
        ⟨some ⟨"A", "I", "R"⟩, some 1, some 2⟩ Stats.zero).2.2.keychainResetAttempts = 1
    ∧ (clearTokens { baseEnv 0 with keychainResetThrows := true }
        ⟨some ⟨"A", "I", "R"⟩, some 1, some 2⟩ Stats.zero).2.2.removeTokenAttempts = 0
    ∧ (clearTokens { baseEnv 0 with keychainResetThrows := true }
        ⟨some ⟨"A", "I", "R"⟩, some 1, some 2⟩ Stats.zero).2.2.removeRefreshAttempts = 0
    ∧ (clearTokens { baseEnv 0 with keychainResetThrows := true }
        ⟨some ⟨"A", "I", "R"⟩, some 1, some 2⟩ Stats.zero).2.1 =
        ⟨some ⟨"A", "I", "R"⟩, some 1, some 2⟩ :=
  ⟨rfl, rfl, rfl, rfl, rfl⟩

/-- C5 amended: `clearTokens` performs the three deletions in sequence —
secure blob, access-expiry entry, refresh-expiry entry — inside one
try/catch, aborting at the first failure: a failed blob deletion skips both
expiry deletions, a failed access-expiry deletion skips the refresh-expiry
deletion, and only when all three succeed does it return success with the
store fully empty. -/
theorem C5_amended_clear_aborts_on_first_failure (env : Env) (store : Store) :
    (env.keychainResetThrows = true →
      (clearTokens env store Stats.zero).1 = false
      ∧ (clearTokens env store Stats.zero).2.2.removeTokenAttempts = 0
      ∧ (clearTokens env store Stats.zero).2.2.removeRefreshAttempts = 0
      ∧ (clearTokens env store Stats.zero).2.1 = store)
    ∧ (env.keychainResetThrows = false → env.asRemoveTokenThrows = true →
      (clearTokens env store Stats.zero).1 = false
      ∧ (clearTokens env store Stats.zero).2.2.removeTokenAttempts = 1
      ∧ (clearTokens env store Stats.zero).2.2.removeRefreshAttempts = 0)
    ∧ (env.keychainResetThrows = false → env.asRemoveTokenThrows = false →
        env.asRemoveRefreshThrows = false →
      (clearTokens env store Stats.zero).1 = true
      ∧ (clearTokens env store Stats.zero).2.1 = Store.empty
      ∧ (clearTokens env store Stats.zero).2.2.keychainResetAttempts = 1
      ∧ (clearTokens env store Stats.zero).2.2.removeTokenAttempts = 1
      ∧ (clearTokens env store Stats.zero).2.2.removeRefreshAttempts = 1) := by
  refine ⟨fun h1 => ?_, fun h1 h2 => ?_, fun h1 h2 h3 => ?_⟩ <;>
    simp [clearTokens, Store.empty, Stats.zero, h1] <;> simp_all

/-- Witness for the amended C5 at a failing blob deletion. -/
theorem C5_amended_clear_aborts_on_first_failure_witness :
    (clearTokens { baseEnv 0 with keychainResetThrows := true }
        ⟨none, some 4, none⟩ Stats.zero).2.2.removeTokenAttempts = 0 :=
  ((C5_amended_clear_aborts_on_first_failure
      { baseEnv 0 with keychainResetThrows := true } ⟨none, some 4, none⟩).1 rfl).2.1

/-- C6 counterexample: when the revocation endpoint succeeds but the local
clear fails (the access-expiry deletion throws), `logoutUser` resolves
failure and leaves part of the session behind, contradicting "logout always
resolves as success and leaves the store empty". -/
theorem C6_counterexample :
    (logoutUser { baseEnv 0 with asRemoveTokenThrows := true }
        ⟨some ⟨"A", "I", "R"⟩, some 1, some 2⟩ Stats.zero).1 = false
    ∧ (logoutUser { baseEnv 0 with asRemoveTokenThrows := true }
        ⟨some ⟨"A", "I", "R"⟩, some 1, some 2⟩ Stats.zero).2.1.tokenExpiry = some 1 :=
  ⟨rfl, rfl⟩

/-- C6 amended: `logoutUser` never raises; it always attempts the local
clear as its final step and swallows any revocation error (returning
success whenever the revocation call or the config fetch throws, regardless
of the clear's outcome); when the three local deletions succeed it resolves
success and leaves the store empty, including when the revocation call
fails — but when revocation succeeds and a local deletion fails, it
resolves failure. -/
theorem C6_amended_logout (env : Env) (store : Store)
    (h1 : env.keychainResetThrows = false) (h2 : env.asRemoveTokenThrows = false)
    (h3 : env.asRemoveRefreshThrows = false) :
    (logoutUser env store Stats.zero).1 = true
    ∧ (logoutUser env store Stats.zero).2.1 = Store.empty
    ∧ ∀ (e : Env) (st : Store), e.logoutEndpointThrows = true →
        (logoutUser e st Stats.zero).1 = true := by
  refine ⟨?_, ?_, ?_⟩
  · by_cases hcfg : env.getConfigThrows <;>
      by_cases hrev : env.logoutEndpointThrows <;>
        simp [logoutUser, clearTokens, hcfg, hrev, h1, h2, h3]
  · by_cases hcfg : env.getConfigThrows <;>
      by_cases hrev : env.logoutEndpointThrows <;>
        simp [logoutUser, clearTokens, Store.empty, hcfg, hrev, h1, h2, h3]
  · intro e st hrev
    by_cases hcfg : e.getConfigThrows <;> simp [logoutUser, hcfg, hrev]

/-- Witness for the amended C6: revocation fails, local clear succeeds. -/
theorem C6_amended_logout_witness :
    (logoutUser { baseEnv 0 with logoutEndpointThrows := true }
        ⟨some ⟨"A", "I", "R"⟩, some 1, some 2⟩ Stats.zero).1 = true
    ∧ (logoutUser { baseEnv 0 with logoutEndpointThrows := true }
        ⟨some ⟨"A", "I", "R"⟩, some 1, some 2⟩ Stats.zero).2.1 = Store.empty :=
  let h := C6_amended_logout { baseEnv 0 with logoutEndpointThrows := true }
    ⟨some ⟨"A", "I", "R"⟩, some 1, some 2⟩ rfl rfl rfl
  ⟨h.1, h.2.1⟩

/-- C7 counterexample: when the provider supplies no refresh lifetime,
`storeTokens` does not leave the refresh expiry unset — it persists
`now + 0`, i.e. the present instant, so the entry is present. -/
theorem C7_counterexample :
    (storeTokens (baseEnv 1000) Store.empty ⟨"A2", "I2", some "R2", 5000, none, none⟩).1 =
      true
    ∧ (storeTokens (baseEnv 1000) Store.empty
        ⟨"A2", "I2", some "R2", 5000, none, none⟩).2.refreshExpiry = some 1000
    ∧ (storeTokens (baseEnv 1000) Store.empty
        ⟨"A2", "I2", some "R2", 5000, none, none⟩).2.refreshExpiry ≠ none := by
  refine ⟨rfl, rfl, ?_⟩
  simp [storeTokens, baseEnv, Store.empty]

/-- C7 amended: on every successful store of an authorization or refresh
result, the persisted refresh expiry is `now + lifetime_seconds * 1000`
when the provider supplies a refresh lifetime, and is set to `now`
(`now + 0`) when it supplies none; in either case the value is never
consulted — `refreshTokens` calls the endpoint whenever a refresh token is
present, with no independent refresh-expiry check. -/
theorem C7_amended_refresh_expiry (env : Env) (store : Store) (a : AuthResult)
    (h1 : env.keychainSetThrows = false) (h2 : env.asSetTokenThrows = false)
    (h3 : env.asSetRefreshThrows = false) :
    (storeTokens env store a).1 = true
    ∧ (∀ lifetime : Int, refreshExpiresRaw a = some lifetime →
        (storeTokens env store a).2.refreshExpiry = some (env.now + lifetime * 1000))
    ∧ (refreshExpiresRaw a = none →
        (storeTokens env store a).2.refreshExpiry = some env.now)
    ∧ (storeTokens env store a).2.tokenExpiry = some a.accessTokenExpirationDate
    ∧ ∀ (e : Env) (st : Store) (c : KeychainCredentials),
        st.keychain = some c → c.refreshToken ≠ "" →
        e.keychainGetThrows = false → e.getConfigThrows = false →
        (refreshTokens e st Stats.zero).2.2.refreshCalls = 1 := by
  refine ⟨?_, fun lifetime hl => ?_, fun hl => ?_, ?_, ?_⟩
  · simp [storeTokens, h1, h2, h3]
  · simp [storeTokens, h1, h2, h3, hl]
  · simp [storeTokens, h1, h2, h3, hl]
  · simp [storeTokens, h1, h2, h3]
  · intro e st c hkc hrt hkg hcfg
    obtain ⟨kc, tae, tre⟩ := st
    simp only at hkc
    subst hkc
    cases hresp : e.refreshResponse with
    | none => simp [refreshTokens, hkg, hrt, hcfg, hresp, Stats.zero]
    | some resp => simp [refreshTokens, hkg, hrt, hcfg, hresp, Stats.zero]

/-- Witness for the amended C7: a declared lifetime of 300 seconds persists
an expiry 300000 ms after now. -/
theorem C7_amended_refresh_expiry_witness :
    (storeTokens (baseEnv 1000) Store.empty
        ⟨"A2", "I2", some "R2", 5000, some 300, none⟩).2.refreshExpiry =
      some 301000 :=
  (C7_amended_refresh_expiry (baseEnv 1000) Store.empty
      ⟨"A2", "I2", some "R2", 5000, some 300, none⟩ rfl rfl rfl).2.1 300 rfl

/-- C8 counterexample: when `authorize` succeeds but the access-expiry
write fails mid-save, `login` returns failure yet the prior session's
secure blob has already been overwritten with the new credentials —
the previously persisted session is NOT left entirely unchanged. -/
theorem C8_counterexample :
    (login { baseEnv 0 with
        authorizeResponse := some ⟨"A2", "I2", some "R2", 5000, some 300, none⟩,
        asSetTokenThrows := true }
      ⟨some ⟨"A1", "I1", "R1"⟩, some 100, some 200⟩ Stats.zero).1 = none
    ∧ (login { baseEnv 0 with
        authorizeResponse := some ⟨"A2", "I2", some "R2", 5000, some 300, none⟩,
        asSetTokenThrows := true }
      ⟨some ⟨"A1", "I1", "R1"⟩, some 100, some 200⟩ Stats.zero).2.1.keychain =
        some ⟨"A2", "I2", "R2"⟩
    ∧ (login { baseEnv 0 with
        authorizeResponse := some ⟨"A2", "I2", some "R2", 5000, some 300, none⟩,
        asSetTokenThrows := true }
      ⟨some ⟨"A1", "I1", "R1"⟩, some 100, some 200⟩ Stats.zero).2.1 ≠
        ⟨some ⟨"A1", "I1", "R1"⟩, some 100, some 200⟩ := by
  refine ⟨rfl, rfl, fun h => ?_⟩
  have h2 : (login { baseEnv 0 with
      authorizeResponse := some ⟨"A2", "I2", some "R2", 5000, some 300, none⟩,
      asSetTokenThrows := true }
    ⟨some ⟨"A1", "I1", "R1"⟩, some 100, some 200⟩ Stats.zero).2.1.keychain =
      some ⟨"A2", "I2", "R2"⟩ := rfl
  rw [h] at h2
  exact absurd (KeychainCredentials.mk.injEq _ _ _ _ _ _ ▸ Option.some.injEq _ _ ▸ h2).1
    (by decide)

/-- C8 amended: `login` returns failure and leaves the prior session
untouched on a config-fetch error, on user cancellation or provider error
(the `authorize` call throws), and when the very first persistence write
(the secure blob) fails; but when a later write fails mid-save, login still
returns failure while the store may already be partially overwritten. -/
theorem C8_amended_login_failure_frame (env : Env) (store : Store) :
    (env.getConfigThrows = true →
      login env store Stats.zero = (none, store, Stats.zero))
    ∧ (env.getConfigThrows = false → env.authorizeResponse = none →
      (login env store Stats.zero).1 = none
      ∧ (login env store Stats.zero).2.1 = store)
    ∧ (env.keychainSetThrows = true →
      (login env store Stats.zero).1 = none
      ∧ (login env store Stats.zero).2.1 = store)
    ∧ (env.asSetTokenThrows = true ∨ env.asSetRefreshThrows = true →
      (login env store Stats.zero).1 = none) := by
  refine ⟨fun h => ?_, fun h1 h2 => ?_, fun h => ?_, fun h => ?_⟩
  · simp [login, h]
  · simp [login, h1, h2]
  · by_cases hcfg : env.getConfigThrows
    · simp [login, hcfg]
    · cases ha : env.authorizeResponse with
      | none => simp [login, hcfg, ha]
      | some a => simp [login, storeTokens, hcfg, ha, h]
  · by_cases hcfg : env.getConfigThrows
    · simp [login, hcfg]
    · cases ha : env.authorizeResponse with
      | none => simp [login, hcfg, ha]
      | some a =>
        by_cases hks : env.keychainSetThrows
        · simp [login, storeTokens, hcfg, ha, hks]
        · rcases h with h | h
          · simp [login, storeTokens, hcfg, ha, hks, h]
          · by_cases hst : env.asSetTokenThrows <;>
              simp [login, storeTokens, hcfg, ha, hks, hst, h]

/-- Witness for the amended C8: a cancelled authorization flow. -/
theorem C8_amended_login_failure_frame_witness :
    (login (baseEnv 0) ⟨some ⟨"A1", "I1", "R1"⟩, some 100, some 200⟩ Stats.zero).1 = none
    ∧ (login (baseEnv 0) ⟨some ⟨"A1", "I1", "R1"⟩, some 100, some 200⟩ Stats.zero).2.1 =
        ⟨some ⟨"A1", "I1", "R1"⟩, some 100, some 200⟩ :=
  (C8_amended_login_failure_frame (baseEnv 0)
      ⟨some ⟨"A1", "I1", "R1"⟩, some 100, some 200⟩).2.1 rfl rfl

/-- C9: the foreground handler takes no action on transitions to
background, but — because it keeps no record of the last observed app
state — it DOES validate the session and can emit the session-expired
event on an `active` signal received while the app was already foreground:
a first `active` signal validates the (still valid) session, and a second
`active` signal validates again (one more `getTokens` call) and emits
session-expired once the session can no longer be refreshed, contradicting
the claimed de-duplication. -/
theorem C9_foreground_handler_not_deduplicated :
    (handleAppStateChange (baseEnv 0) ⟨some ⟨"A", "I", "R"⟩, some 100, some 200⟩
        ⟨true, some ⟨"A", "R", "I", 100, 200⟩⟩ Stats.zero AppStateStatus.active).2.2.2 =
      false
    ∧ (handleAppStateChange (baseEnv 0) ⟨some ⟨"A", "I", "R"⟩, some 100, some 200⟩
        ⟨true, some ⟨"A", "R", "I", 100, 200⟩⟩ Stats.zero AppStateStatus.active).2.1 =
        ⟨some ⟨"A", "I", "R"⟩, some 100, some 200⟩
    ∧ (handleAppStateChange (baseEnv 0) ⟨some ⟨"A", "I", "R"⟩, some 100, some 200⟩
        ⟨true, some ⟨"A", "R", "I", 100, 200⟩⟩ Stats.zero
        AppStateStatus.active).2.2.1.getTokensCalls = 1
    ∧ (handleAppStateChange (baseEnv 150) ⟨some ⟨"A", "I", "R"⟩, some 100, some 200⟩
        ⟨true, some ⟨"A", "R", "I", 100, 200⟩⟩ Stats.zero
        AppStateStatus.active).2.2.1.getTokensCalls = 1
    ∧ (handleAppStateChange (baseEnv 150) ⟨some ⟨"A", "I", "R"⟩, some 100, some 200⟩
        ⟨true, some ⟨"A", "R", "I", 100, 200⟩⟩ Stats.zero AppStateStatus.active).2.2.2 =
      true
    ∧ (handleAppStateChange (baseEnv 150) ⟨some ⟨"A", "I", "R"⟩, some 100, some 200⟩
        ⟨true, some ⟨"A", "R", "I", 100, 200⟩⟩ Stats.zero AppStateStatus.active).1 =
        ⟨false, none⟩
    ∧ ∀ (e : Env) (st : Store) (ctx : CtxState),
        handleAppStateChange e st ctx Stats.zero AppStateStatus.background =
          (ctx, st, Stats.zero, false) := by
  refine ⟨rfl, rfl, rfl, rfl, rfl, rfl, ?_⟩
  intro e st ctx
  simp [handleAppStateChange]

/-- C10: round trip of the session store — after a successful `storeTokens`
of an authorization or refresh result whose access expiry is still in the
future, and with no store modification in between, `getTokens` returns
exactly the persisted credential: the tokens stored in the blob and the two
persisted expiry instants. -/
theorem C10_store_roundtrip (env env2 : Env) (store : Store) (a : AuthResult)
    (h1 : env.keychainSetThrows = false) (h2 : env.asSetTokenThrows = false)
    (h3 : env.asSetRefreshThrows = false)
    (hfresh : env2.now < a.accessTokenExpirationDate)
    (hg : env2.asGetThrows = false) (hkg : env2.keychainGetThrows = false) :
    (storeTokens env store a).1 = true
    ∧ (storeTokens env store a).2.keychain =
        some ⟨a.accessToken, a.idToken, a.refreshTokenOpt.getD ""⟩
    ∧ (storeTokens env store a).2.tokenExpiry = some a.accessTokenExpirationDate
    ∧ (storeTokens env store a).2.refreshExpiry =
        some (env.now + (refreshExpiresRaw a).getD 0 * 1000)
    ∧ (getTokens env2 (storeTokens env store a).2 Stats.zero).1 =
        some ⟨a.accessToken, a.refreshTokenOpt.getD "", a.idToken,
              a.accessTokenExpirationDate,
              env.now + (refreshExpiresRaw a).getD 0 * 1000⟩ := by
  have hne : ¬ a.accessTokenExpirationDate ≤ env2.now := by omega
  refine ⟨?_, ?_, ?_, ?_, ?_⟩ <;>
    simp [storeTokens, getTokens, credsOf, h1, h2, h3, hg, hkg, hne]

/-- Witness for C10 at a concrete refresh response. -/
theorem C10_store_roundtrip_witness :
    (getTokens (baseEnv 0)
        (storeTokens (baseEnv 0) Store.empty
          ⟨"A2", "I2", some "R2", 100, some 3, none⟩).2 Stats.zero).1 =
      some ⟨"A2", "R2", "I2", 100, 3000⟩ :=
  (C10_store_roundtrip (baseEnv 0) (baseEnv 0) Store.empty
      ⟨"A2", "I2", some "R2", 100, some 3, none⟩ rfl rfl rfl (by simp [baseEnv])
      rfl rfl).2.2.2.2

end OidcDemo
